import Mathlib

/-!
Verification of `IPython/external/qt.py`, a Qt API selector shim.

The module runs once at import time.  It reads the `QT_API` environment
variable (defaulting to `'pyqt'`), then either

* configures sip and imports `QtCore, QtGui, QtSvg` from PyQt4, aliasing
  `QtCore.Signal`/`QtCore.Slot` to the PyQt-specific entry points, or
* imports the three modules from PySide, or
* raises a `RuntimeError` for an unrecognized value.

We embed the module-level execution as a pure function from the optional
environment value to a trace of external effects (environment reads,
imports, `sip.setapi` calls) together with either the resulting module
namespace or the raised exception.  The namespace is an immutable value in
the embedding, matching the run-once-then-fixed semantics of a Python
module body.
-/

/-- The single-quote character `'`, built numerically to keep source quoting
uniform. -/
def squote : Char := Char.ofNat 39

/-- The double-quote character `"`. -/
def dquote : Char := Char.ofNat 34

/-- The backslash character `\`. -/
def bslash : Char := Char.ofNat 92

/-- Hexadecimal digit for a value below 16 (lowercase, as CPython prints). -/
def hexDigit (n : Nat) : Char :=
  if n < 10 then Char.ofNat (48 + n) else Char.ofNat (87 + n)

/-- Two-digit lowercase hex rendering of a byte value, as in `\xNN`. -/
def hexByte (n : Nat) : List Char :=
  [hexDigit ((n / 16) % 16), hexDigit (n % 16)]

/-- Quote character chosen by Python `repr` for a string: a single quote,
unless the string contains a single quote and no double quote. -/
def pyReprQuote (s : String) : Char :=
  if squote ∈ s.data ∧ dquote ∉ s.data then dquote else squote

/-- How Python `repr` renders one character of a string quoted with `q`:
backslash and the active quote are escaped, common control characters get
their two-letter escapes, other ASCII control characters are shown as
`\xNN`, and everything else is kept verbatim. -/
def pyReprEscapeChar (q : Char) (c : Char) : List Char :=
  if c = bslash then [bslash, bslash]
  else if c = q then [bslash, q]
  else if c = Char.ofNat 10 then [bslash, Char.ofNat 110]
  else if c = Char.ofNat 13 then [bslash, Char.ofNat 114]
  else if c = Char.ofNat 9 then [bslash, Char.ofNat 116]
  else if c.toNat < 32 || c.toNat = 127 then bslash :: Char.ofNat 120 :: hexByte c.toNat
  else [c]

/-- Python `repr` of a string: the chosen quote around the escaped body.
This models the `%r` conversions used in the shim's error message. -/
def pyRepr (s : String) : String :=
  let q := pyReprQuote s
  String.mk (q :: (s.data.map (pyReprEscapeChar q)).flatten ++ [q])

/-- `strContains hay needle`: `needle` occurs contiguously inside `hay`
(Python substring containment, `needle in hay`). -/
def strContains (hay needle : String) : Prop :=
  List.IsInfix needle.data hay.data

/-- A character that Python `repr` leaves verbatim inside a single-quoted
string: printable ASCII other than backslash and the single quote. -/
def plainChar (c : Char) : Bool :=
  32 ≤ c.toNat && c.toNat ≤ 126 && c ≠ bslash && c ≠ squote

/-- A string whose `repr` is just the string between single quotes. -/
def plainStr (s : String) : Bool :=
  s.data.all plainChar

/-- The observable external effects of the module body, in program order. -/
inductive Effect where
  /-- `os.environ.get(name, ...)`. -/
  | getenv (name : String)
  /-- A plain `import name` statement. -/
  | importTop (name : String)
  /-- A `from package import names` statement. -/
  | importFrom (package : String) (names : List String)
  /-- A `sip.setapi(name, version)` call. -/
  | setapi (name : String) (version : Nat)
deriving DecidableEq, Repr

/-- Python exceptions that could conceivably surface from this module body;
the shim itself only ever constructs `RuntimeError`. -/
inductive PyExc where
  | RuntimeError (msg : String)
  | ImportError (msg : String)
  | AttributeError (msg : String)
  | ValueError (msg : String)
deriving DecidableEq, Repr

/-- Identity of a Python object reachable through the module handles; used
to express `is`-identity of attribute values across aliasing. -/
inductive PyObjectRef where
  | pyqt4_pyqtSignal
  | pyqt4_pyqtSlot
  | pyside_Signal
  | pyside_Slot
deriving DecidableEq, Repr

/-- A handle to an imported Qt submodule: the binding package it came from,
its name, the attributes the binding itself provides, and the attributes
this shim assigned onto it afterwards. -/
structure QtModuleHandle where
  package : String
  name : String
  nativeAttrs : List (String × PyObjectRef)
  shimAttrs : List (String × PyObjectRef)
deriving DecidableEq, Repr

/-- Attribute lookup on a module handle: shim-assigned attributes are found
alongside the native ones (the names never collide in this program). -/
def QtModuleHandle.getattr (m : QtModuleHandle) (a : String) : Option PyObjectRef :=
  match m.shimAttrs.lookup a with
  | some r => some r
  | none => m.nativeAttrs.lookup a

/-- `setattr`-by-assignment performed by the shim on a module handle. -/
def QtModuleHandle.setShimAttr (m : QtModuleHandle) (a : String) (r : PyObjectRef) :
    QtModuleHandle :=
  { m with shimAttrs := m.shimAttrs ++ [(a, r)] }

/-- Modelled from the spec: the external PyQt4 binding's `QtCore` module,
whose native signal/slot declaration entry points are named `pyqtSignal`
and `pyqtSlot`. -/
def PyQt4_QtCore : QtModuleHandle :=
  { package := "PyQt4", name := "QtCore",
    nativeAttrs := [("pyqtSignal", .pyqt4_pyqtSignal), ("pyqtSlot", .pyqt4_pyqtSlot)],
    shimAttrs := [] }

/-- Modelled from the spec: the external PyQt4 `QtGui` module (opaque). -/
def PyQt4_QtGui : QtModuleHandle :=
  { package := "PyQt4", name := "QtGui", nativeAttrs := [], shimAttrs := [] }

/-- Modelled from the spec: the external PyQt4 `QtSvg` module (opaque). -/
def PyQt4_QtSvg : QtModuleHandle :=
  { package := "PyQt4", name := "QtSvg", nativeAttrs := [], shimAttrs := [] }

/-- Modelled from the spec: the external PySide binding's `QtCore` module,
which natively provides `Signal` and `Slot`. -/
def PySide_QtCore : QtModuleHandle :=
  { package := "PySide", name := "QtCore",
    nativeAttrs := [("Signal", .pyside_Signal), ("Slot", .pyside_Slot)],
    shimAttrs := [] }

/-- Modelled from the spec: the external PySide `QtGui` module (opaque). -/
def PySide_QtGui : QtModuleHandle :=
  { package := "PySide", name := "QtGui", nativeAttrs := [], shimAttrs := [] }

/-- Modelled from the spec: the external PySide `QtSvg` module (opaque). -/
def PySide_QtSvg : QtModuleHandle :=
  { package := "PySide", name := "QtSvg", nativeAttrs := [], shimAttrs := [] }

/-- `QT_API_PYQT = 'pyqt'` (source line 7). -/
def QT_API_PYQT : String := "pyqt"

/-- `QT_API_PYSIDE = 'pyside'` (source line 8). -/
def QT_API_PYSIDE : String := "pyside"

/-- `os.environ.get(key, default)` restricted to the one key this module
reads: the stored value when the variable is set, the default otherwise. -/
def osEnvironGet (env : Option String) (dflt : String) : String :=
  match env with
  | some v => v
  | none => dflt

/-- The module's public namespace after a successful import: the two
recognized identifiers, the resolved `QT_API` value, and the three neutral
module handles. -/
structure ModuleNamespace where
  QT_API_PYQT : String
  QT_API_PYSIDE : String
  QT_API : String
  QtCore : QtModuleHandle
  QtGui : QtModuleHandle
  QtSvg : QtModuleHandle
deriving DecidableEq, Repr

/-- The `RuntimeError` message
`'Invalid Qt API %r, valid values are: %r or %r' % (QT_API, QT_API_PYQT, QT_API_PYSIDE)`
(source lines 31-32). -/
def invalidMsg (api : String) : String :=
  "Invalid Qt API " ++ pyRepr api ++ ", valid values are: " ++
    pyRepr QT_API_PYQT ++ " or " ++ pyRepr QT_API_PYSIDE

/-- The module body of `IPython/external/qt.py`, run at import time.
Input: the state of the `QT_API` environment variable.  Output: the trace
of external effects in program order, and either the resulting module
namespace or the exception that aborted the import. -/
def qtModuleInit (env : Option String) : List Effect × Except PyExc ModuleNamespace :=
  -- QT_API = os.environ.get('QT_API', QT_API_PYQT)
  let QT_API := osEnvironGet env QT_API_PYQT
  let tr0 : List Effect := [.getenv "QT_API"]
  if QT_API = QT_API_PYQT then
    -- import sip; sip.setapi('QString', 2); sip.setapi('QVariant', 2)
    -- from PyQt4 import QtCore, QtGui, QtSvg
    let tr := tr0 ++ [.importTop "sip", .setapi "QString" 2, .setapi "QVariant" 2,
                      .importFrom "PyQt4" ["QtCore", "QtGui", "QtSvg"]]
    -- QtCore.Signal = QtCore.pyqtSignal; QtCore.Slot = QtCore.pyqtSlot
    match PyQt4_QtCore.getattr "pyqtSignal", PyQt4_QtCore.getattr "pyqtSlot" with
    | some sig, some slt =>
        let QtCore := (PyQt4_QtCore.setShimAttr "Signal" sig).setShimAttr "Slot" slt
        (tr, .ok { QT_API_PYQT := QT_API_PYQT, QT_API_PYSIDE := QT_API_PYSIDE,
                   QT_API := QT_API, QtCore := QtCore,
                   QtGui := PyQt4_QtGui, QtSvg := PyQt4_QtSvg })
    | _, _ => (tr, .error (.AttributeError "module attribute not found"))
  else if QT_API = QT_API_PYSIDE then
    -- from PySide import QtCore, QtGui, QtSvg
    let tr := tr0 ++ [.importFrom "PySide" ["QtCore", "QtGui", "QtSvg"]]
    (tr, .ok { QT_API_PYQT := QT_API_PYQT, QT_API_PYSIDE := QT_API_PYSIDE,
               QT_API := QT_API, QtCore := PySide_QtCore,
               QtGui := PySide_QtGui, QtSvg := PySide_QtSvg })
  else
    -- raise RuntimeError('Invalid Qt API %r, valid values are: %r or %r' % ...)
    (tr0, .error (.RuntimeError (invalidMsg QT_API)))

/-- An effect that imports one of the two binding libraries. -/
def Effect.isBindingImport : Effect → Bool
  | .importFrom p _ => p = "PyQt4" || p = "PySide"
  | _ => false

/-- An effect that imports anything at all. -/
def Effect.isImport : Effect → Bool
  | .importTop _ => true
  | .importFrom _ _ => true
  | _ => false

/-- A `sip.setapi` marshalling-mode switch. -/
def Effect.isSetapi : Effect → Bool
  | .setapi _ _ => true
  | _ => false

/-- An environment read. -/
def Effect.isGetenv : Effect → Bool
  | .getenv _ => true
  | _ => false

/-! ### Helper lemmas -/

/-- An infix of a list stays an infix after extending on the left. -/
theorem isInfix_append_left (l : List Char) {x m : List Char}
    (h : List.IsInfix x m) : List.IsInfix x (l ++ m) := by
  obtain ⟨u, v, huv⟩ := h
  exact ⟨l ++ u, v, by rw [← huv]; simp [List.append_assoc]⟩

/-- On a plain string, `repr` chooses the single quote. -/
theorem plain_quote {s : String} (h : plainStr s = true) :
    pyReprQuote s = squote := by
  unfold pyReprQuote
  rw [if_neg]
  intro hc
  have hp := List.all_eq_true.mp h squote hc.1
  exact absurd hp (by decide)

/-- A plain character is rendered verbatim by the `repr` escaper. -/
theorem plainChar_escape {c : Char} (h : plainChar c = true) :
    pyReprEscapeChar squote c = [c] := by
  unfold plainChar at h
  simp only [Bool.and_eq_true, decide_eq_true_eq] at h
  obtain ⟨⟨⟨h1, h2⟩, h3⟩, h4⟩ := h
  unfold pyReprEscapeChar
  rw [if_neg h3, if_neg h4, if_neg ?_, if_neg ?_, if_neg ?_, if_neg ?_]
  · simp only [Bool.or_eq_true, decide_eq_true_eq]
    rintro (hlt | h127) <;> omega
  · intro hc
    rw [hc] at h1
    exact absurd h1 (by decide)
  · intro hc
    rw [hc] at h1
    exact absurd h1 (by decide)
  · intro hc
    rw [hc] at h1
    exact absurd h1 (by decide)

/-- The escaped body of a plain string is the string itself. -/
theorem plain_body {l : List Char} (h : ∀ c ∈ l, plainChar c = true) :
    (l.map (pyReprEscapeChar squote)).flatten = l := by
  induction l with
  | nil => rfl
  | cons c t ih =>
      rw [List.map_cons, List.flatten_cons, plainChar_escape (h c (by simp)),
        ih (fun x hx => h x (by simp [hx]))]
      rfl

/-- `repr` of a plain string is just the string between single quotes. -/
theorem plain_pyRepr {s : String} (h : plainStr s = true) :
    pyRepr s = String.mk (squote :: s.data ++ [squote]) := by
  simp only [pyRepr]
  rw [plain_quote h, plain_body (List.all_eq_true.mp h)]

/-- The error message always names both recognized identifiers. -/
theorem invalidMsg_contains_pyqt (s : String) :
    strContains (invalidMsg s) QT_API_PYQT := by
  unfold strContains
  have hd : (invalidMsg s).data =
      ("Invalid Qt API " ++ pyRepr s).data ++
        (", valid values are: " ++ pyRepr QT_API_PYQT ++ " or " ++
          pyRepr QT_API_PYSIDE).data := by
    simp [invalidMsg, String.data_append]
  rw [hd]
  exact isInfix_append_left _ (by decide)

/-- The error message always names the second recognized identifier. -/
theorem invalidMsg_contains_pyside (s : String) :
    strContains (invalidMsg s) QT_API_PYSIDE := by
  unfold strContains
  have hd : (invalidMsg s).data =
      ("Invalid Qt API " ++ pyRepr s).data ++
        (", valid values are: " ++ pyRepr QT_API_PYQT ++ " or " ++
          pyRepr QT_API_PYSIDE).data := by
    simp [invalidMsg, String.data_append]
  rw [hd]
  exact isInfix_append_left _ (by decide)

/-- For a plain offending value, the error message contains the value. -/
theorem invalidMsg_contains_self {s : String} (h : plainStr s = true) :
    strContains (invalidMsg s) s := by
  unfold strContains
  refine ⟨"Invalid Qt API ".data ++ [squote],
    [squote] ++ (", valid values are: " ++ pyRepr QT_API_PYQT ++ " or " ++
      pyRepr QT_API_PYSIDE).data, ?_⟩
  rw [show invalidMsg s = ("Invalid Qt API " ++ pyRepr s) ++
      (", valid values are: " ++ pyRepr QT_API_PYQT ++ " or " ++
        pyRepr QT_API_PYSIDE) from by simp [invalidMsg, String.ext_iff, String.data_append]]
  rw [String.data_append, String.data_append, plain_pyRepr h]
  simp [List.append_assoc]

/-- The complete behavior of the module body when the resolved value is
`'pyqt'` (the environment variable is unset or set to `'pyqt'`). -/
theorem qtModuleInit_pyqt (env : Option String)
    (h : osEnvironGet env QT_API_PYQT = QT_API_PYQT) :
    qtModuleInit env =
      ([.getenv "QT_API", .importTop "sip", .setapi "QString" 2, .setapi "QVariant" 2,
        .importFrom "PyQt4" ["QtCore", "QtGui", "QtSvg"]],
       .ok { QT_API_PYQT := QT_API_PYQT, QT_API_PYSIDE := QT_API_PYSIDE,
             QT_API := osEnvironGet env QT_API_PYQT,
             QtCore :=
               { package := "PyQt4", name := "QtCore",
                 nativeAttrs := [("pyqtSignal", .pyqt4_pyqtSignal),
                                 ("pyqtSlot", .pyqt4_pyqtSlot)],
                 shimAttrs := [("Signal", .pyqt4_pyqtSignal), ("Slot", .pyqt4_pyqtSlot)] },
             QtGui := PyQt4_QtGui, QtSvg := PyQt4_QtSvg }) := by
  simp only [qtModuleInit, h]
  rfl

/-- The complete behavior of the module body when the environment variable
is set to `'pyside'`. -/
theorem qtModuleInit_pyside (env : Option String)
    (h : osEnvironGet env QT_API_PYQT = QT_API_PYSIDE) :
    qtModuleInit env =
      ([.getenv "QT_API", .importFrom "PySide" ["QtCore", "QtGui", "QtSvg"]],
       .ok { QT_API_PYQT := QT_API_PYQT, QT_API_PYSIDE := QT_API_PYSIDE,
             QT_API := osEnvironGet env QT_API_PYQT,
             QtCore := PySide_QtCore, QtGui := PySide_QtGui, QtSvg := PySide_QtSvg }) := by
  simp only [qtModuleInit, h]
  rfl

/-- The complete behavior of the module body on an unrecognized value. -/
theorem qtModuleInit_invalid (env : Option String)
    (h1 : osEnvironGet env QT_API_PYQT ≠ QT_API_PYQT)
    (h2 : osEnvironGet env QT_API_PYQT ≠ QT_API_PYSIDE) :
    qtModuleInit env =
      ([.getenv "QT_API"],
       .error (.RuntimeError (invalidMsg (osEnvironGet env QT_API_PYQT)))) := by
  simp only [qtModuleInit, if_neg h1, if_neg h2]

/-! ### Claims -/

/-- Claim C1: for every configuration value outside `{'pyqt', 'pyside'}`,
module initialization raises an error whose message contains both valid
option identifiers, and (for values `repr` renders verbatim) the offending
value itself. -/
theorem C1_invalid_value_raises_naming_options (s : String)
    (h1 : s ≠ QT_API_PYQT) (h2 : s ≠ QT_API_PYSIDE) :
    ∃ msg, (qtModuleInit (some s)).2 = .error (.RuntimeError msg) ∧
      strContains msg QT_API_PYQT ∧ strContains msg QT_API_PYSIDE ∧
      (plainStr s = true → strContains msg s) := by
  refine ⟨invalidMsg s, ?_, invalidMsg_contains_pyqt s, invalidMsg_contains_pyside s,
    fun hp => invalidMsg_contains_self hp⟩
  exact congrArg Prod.snd (qtModuleInit_invalid (some s) h1 h2)

/-- Witness for C1 at the spec's end-to-end scenario value `'qtwidgets'`. -/
theorem C1_witness :
    ∃ msg, (qtModuleInit (some "qtwidgets")).2 = .error (.RuntimeError msg) ∧
      strContains msg QT_API_PYQT ∧ strContains msg QT_API_PYSIDE ∧
      (plainStr "qtwidgets" = true → strContains msg "qtwidgets") :=
  C1_invalid_value_raises_naming_options "qtwidgets" (by decide) (by decide)

/-- Claim C2: with the variable unset or equal to `'pyqt'`, the resolved
identity is `'pyqt'`, the three neutral handles come from PyQt4, and
`QtCore.Signal is QtCore.pyqtSignal` and `QtCore.Slot is QtCore.pyqtSlot`
(identical object references). -/
theorem C2_pyqt_default_binding_and_aliases (env : Option String)
    (h : env = none ∨ env = some QT_API_PYQT) :
    ∃ ns, (qtModuleInit env).2 = .ok ns ∧
      ns.QT_API = QT_API_PYQT ∧
      ns.QtCore.package = "PyQt4" ∧ ns.QtGui.package = "PyQt4" ∧
      ns.QtSvg.package = "PyQt4" ∧
      ns.QtCore.getattr "Signal" = some .pyqt4_pyqtSignal ∧
      ns.QtCore.getattr "pyqtSignal" = some .pyqt4_pyqtSignal ∧
      ns.QtCore.getattr "Slot" = some .pyqt4_pyqtSlot ∧
      ns.QtCore.getattr "pyqtSlot" = some .pyqt4_pyqtSlot := by
  have hv : osEnvironGet env QT_API_PYQT = QT_API_PYQT := by
    rcases h with h | h <;> rw [h] <;> rfl
  rw [qtModuleInit_pyqt env hv, hv]
  exact ⟨_, rfl, rfl, by decide, by decide, by decide, by decide, by decide, by decide,
    by decide⟩

/-- Witness for C2 with the environment variable unset. -/
theorem C2_witness :
    ∃ ns, (qtModuleInit none).2 = .ok ns ∧
      ns.QT_API = QT_API_PYQT ∧
      ns.QtCore.package = "PyQt4" ∧ ns.QtGui.package = "PyQt4" ∧
      ns.QtSvg.package = "PyQt4" ∧
      ns.QtCore.getattr "Signal" = some .pyqt4_pyqtSignal ∧
      ns.QtCore.getattr "pyqtSignal" = some .pyqt4_pyqtSignal ∧
      ns.QtCore.getattr "Slot" = some .pyqt4_pyqtSlot ∧
      ns.QtCore.getattr "pyqtSlot" = some .pyqt4_pyqtSlot :=
  C2_pyqt_default_binding_and_aliases none (Or.inl rfl)

/-- Claim C3: with the variable equal to `'pyside'`, the three neutral
handles come from PySide, no `sip.setapi` marshalling switch is performed,
and the shim assigns no attributes onto the core handle. -/
theorem C3_pyside_binding_no_config_no_alias (env : Option String)
    (h : env = some QT_API_PYSIDE) :
    ∃ ns, (qtModuleInit env).2 = .ok ns ∧
      ns.QtCore.package = "PySide" ∧ ns.QtGui.package = "PySide" ∧
      ns.QtSvg.package = "PySide" ∧
      (qtModuleInit env).1.filter Effect.isSetapi = [] ∧
      ns.QtCore.shimAttrs = [] := by
  have hv : osEnvironGet env QT_API_PYQT = QT_API_PYSIDE := by rw [h]; rfl
  rw [qtModuleInit_pyside env hv, hv]
  exact ⟨_, rfl, rfl, rfl, rfl, by decide, rfl⟩

/-- Witness for C3 at environment value `'pyside'`. -/
theorem C3_witness :
    ∃ ns, (qtModuleInit (some "pyside")).2 = .ok ns ∧
      ns.QtCore.package = "PySide" ∧ ns.QtGui.package = "PySide" ∧
      ns.QtSvg.package = "PySide" ∧
      (qtModuleInit (some "pyside")).1.filter Effect.isSetapi = [] ∧
      ns.QtCore.shimAttrs = [] :=
  C3_pyside_binding_no_config_no_alias (some "pyside") rfl

/-- Claim C4: whenever the PyQt branch runs, the trace splits into a prefix
holding both `setapi` mode switches and containing no binding import, and a
suffix holding the PyQt4 import of the three modules: both switches happen
strictly before any binding module is imported. -/
theorem C4_setapi_before_binding_import (env : Option String)
    (h : osEnvironGet env QT_API_PYQT = QT_API_PYQT) :
    ∃ pre suf, (qtModuleInit env).1 = pre ++ suf ∧
      Effect.setapi "QString" 2 ∈ pre ∧ Effect.setapi "QVariant" 2 ∈ pre ∧
      (∀ e ∈ pre, e.isBindingImport = false) ∧
      Effect.importFrom "PyQt4" ["QtCore", "QtGui", "QtSvg"] ∈ suf := by
  rw [qtModuleInit_pyqt env h, h]
  exact ⟨[.getenv "QT_API", .importTop "sip", .setapi "QString" 2, .setapi "QVariant" 2],
    [.importFrom "PyQt4" ["QtCore", "QtGui", "QtSvg"]], by decide, by decide, by decide,
    by decide, by decide⟩

/-- Witness for C4 with the environment variable unset. -/
theorem C4_witness :
    ∃ pre suf, (qtModuleInit none).1 = pre ++ suf ∧
      Effect.setapi "QString" 2 ∈ pre ∧ Effect.setapi "QVariant" 2 ∈ pre ∧
      (∀ e ∈ pre, e.isBindingImport = false) ∧
      Effect.importFrom "PyQt4" ["QtCore", "QtGui", "QtSvg"] ∈ suf :=
  C4_setapi_before_binding_import none rfl

/-- Claim C5: on an unrecognized value, initialization fails with no side
effects: the effect trace holds no import and no marshalling-mode switch. -/
theorem C5_invalid_value_no_side_effects (s : String)
    (h1 : s ≠ QT_API_PYQT) (h2 : s ≠ QT_API_PYSIDE) :
    (∃ e, (qtModuleInit (some s)).2 = .error e) ∧
    (qtModuleInit (some s)).1.filter (fun e => e.isImport || e.isSetapi) = [] := by
  rw [qtModuleInit_invalid (some s) h1 h2]
  exact ⟨⟨_, rfl⟩, rfl⟩

/-- Witness for C5 at value `'gtk3'`. -/
theorem C5_witness :
    (∃ e, (qtModuleInit (some "gtk3")).2 = .error e) ∧
    (qtModuleInit (some "gtk3")).1.filter (fun e => e.isImport || e.isSetapi) = [] :=
  C5_invalid_value_no_side_effects "gtk3" (by decide) (by decide)

/-- Claim C6: the empty string is outside the recognized set and errors;
the `'pyqt'` default applies only when the variable is absent — a set
variable's value is taken verbatim, never replaced by the default. -/
theorem C6_empty_string_is_invalid_not_defaulted :
    (∃ msg, (qtModuleInit (some "")).2 = .error (.RuntimeError msg)) ∧
    osEnvironGet none QT_API_PYQT = QT_API_PYQT ∧
    (∃ ns, (qtModuleInit none).2 = .ok ns ∧ ns.QT_API = QT_API_PYQT) ∧
    (∀ s : String, osEnvironGet (some s) QT_API_PYQT = s) := by
  refine ⟨⟨invalidMsg "", ?_⟩, rfl,
    ⟨{ QT_API_PYQT := QT_API_PYQT, QT_API_PYSIDE := QT_API_PYSIDE, QT_API := QT_API_PYQT,
       QtCore := { package := "PyQt4", name := "QtCore",
                   nativeAttrs := [("pyqtSignal", .pyqt4_pyqtSignal),
                                   ("pyqtSlot", .pyqt4_pyqtSlot)],
                   shimAttrs := [("Signal", .pyqt4_pyqtSignal), ("Slot", .pyqt4_pyqtSlot)] },
       QtGui := PyQt4_QtGui, QtSvg := PyQt4_QtSvg }, ?_, rfl⟩, fun s => rfl⟩
  · exact congrArg Prod.snd (qtModuleInit_invalid (some "") (by decide) (by decide))
  · exact congrArg Prod.snd (qtModuleInit_pyqt none rfl)

/-- Claim C7: the environment is read exactly once per run, and the
namespace's resolved `QT_API` value equals that single read's result; the
namespace being a plain immutable value, later reads cannot differ. -/
theorem C7_config_read_once_and_fixed (env : Option String) :
    (qtModuleInit env).1.filter Effect.isGetenv = [.getenv "QT_API"] ∧
    (∀ ns, (qtModuleInit env).2 = .ok ns →
      ns.QT_API = osEnvironGet env QT_API_PYQT) := by
  by_cases h1 : osEnvironGet env QT_API_PYQT = QT_API_PYQT
  · rw [qtModuleInit_pyqt env h1]
    exact ⟨rfl, fun ns hns => by rw [← Except.ok.inj hns]⟩
  · by_cases h2 : osEnvironGet env QT_API_PYQT = QT_API_PYSIDE
    · rw [qtModuleInit_pyside env h2]
      exact ⟨rfl, fun ns hns => by rw [← Except.ok.inj hns]⟩
    · rw [qtModuleInit_invalid env h1 h2]
      exact ⟨rfl, fun ns hns => Except.noConfusion hns⟩

/-- Witness for C7 with the environment variable unset. -/
theorem C7_witness :
    (qtModuleInit none).1.filter Effect.isGetenv = [.getenv "QT_API"] ∧
    ∃ ns, (qtModuleInit none).2 = .ok ns ∧ ns.QT_API = osEnvironGet none QT_API_PYQT :=
  ⟨(C7_config_read_once_and_fixed none).1,
   ⟨_, rfl, (C7_config_read_once_and_fixed none).2 _ rfl⟩⟩

/-- Claim C8: configuration matching is exact, case-sensitive string
equality with no normalization: every value other than the two exact
identifiers errors, including case variants such as `'PyQt'` and
whitespace variants such as `' pyqt'`. -/
theorem C8_matching_is_exact_case_sensitive :
    (∀ s : String, s ≠ QT_API_PYQT → s ≠ QT_API_PYSIDE →
      ∃ msg, (qtModuleInit (some s)).2 = .error (.RuntimeError msg)) ∧
    (∃ m1, (qtModuleInit (some "PyQt")).2 = .error (.RuntimeError m1)) ∧
    (∃ m2, (qtModuleInit (some " pyqt")).2 = .error (.RuntimeError m2)) ∧
    (∃ m3, (qtModuleInit (some "PYSIDE")).2 = .error (.RuntimeError m3)) := by
  have hgen : ∀ s : String, s ≠ QT_API_PYQT → s ≠ QT_API_PYSIDE →
      ∃ msg, (qtModuleInit (some s)).2 = .error (.RuntimeError msg) := by
    intro s h1 h2
    exact ⟨invalidMsg s, congrArg Prod.snd (qtModuleInit_invalid (some s) h1 h2)⟩
  exact ⟨hgen, hgen "PyQt" (by decide) (by decide), hgen " pyqt" (by decide) (by decide),
    hgen "PYSIDE" (by decide) (by decide)⟩

/-- Witness for C8 at the case variant `'Pyqt'`. -/
theorem C8_witness :
    ∃ msg, (qtModuleInit (some "Pyqt")).2 = .error (.RuntimeError msg) :=
  C8_matching_is_exact_case_sensitive.1 "Pyqt" (by decide) (by decide)

/-- Claim C9: on every successful run, the public namespace exposes
`QT_API_PYQT = 'pyqt'`, `QT_API_PYSIDE = 'pyside'`, and `QT_API` equal to
the resolved configuration value. -/
theorem C9_namespace_exposes_identifiers (env : Option String)
    (ns : ModuleNamespace) (h : (qtModuleInit env).2 = .ok ns) :
    ns.QT_API_PYQT = "pyqt" ∧ ns.QT_API_PYSIDE = "pyside" ∧
    ns.QT_API = osEnvironGet env QT_API_PYQT := by
  by_cases h1 : osEnvironGet env QT_API_PYQT = QT_API_PYQT
  · rw [qtModuleInit_pyqt env h1] at h
    cases h
    exact ⟨rfl, rfl, rfl⟩
  · by_cases h2 : osEnvironGet env QT_API_PYQT = QT_API_PYSIDE
    · rw [qtModuleInit_pyside env h2] at h
      cases h
      exact ⟨rfl, rfl, rfl⟩
    · rw [qtModuleInit_invalid env h1 h2] at h
      cases h

/-- Witness for C9 at environment value `'pyside'`. -/
theorem C9_witness :
    ∃ ns, (qtModuleInit (some "pyside")).2 = .ok ns ∧
      (ns.QT_API_PYQT = "pyqt" ∧ ns.QT_API_PYSIDE = "pyside" ∧
        ns.QT_API = osEnvironGet (some "pyside") QT_API_PYQT) :=
  ⟨_, rfl, C9_namespace_exposes_identifiers (some "pyside") _ rfl⟩

/-- Claim C10: the error for an unrecognized value is the `RuntimeError`
constructor, with message exactly the template
`Invalid Qt API %r, valid values are: %r or %r` instantiated with the
offending value and the two recognized identifiers. -/
theorem C10_runtime_error_exact_format (s : String)
    (h1 : s ≠ QT_API_PYQT) (h2 : s ≠ QT_API_PYSIDE) :
    (qtModuleInit (some s)).2 =
      .error (.RuntimeError ("Invalid Qt API " ++ pyRepr s ++
        ", valid values are: " ++ pyRepr QT_API_PYQT ++ " or " ++
        pyRepr QT_API_PYSIDE)) := by
  rw [qtModuleInit_invalid (some s) h1 h2]
  rfl

/-- Witness for C10 at value `'gtk'`. -/
theorem C10_witness :
    (qtModuleInit (some "gtk")).2 =
      .error (.RuntimeError ("Invalid Qt API " ++ pyRepr "gtk" ++
        ", valid values are: " ++ pyRepr QT_API_PYQT ++ " or " ++
        pyRepr QT_API_PYSIDE)) :=
  C10_runtime_error_exact_format "gtk" (by decide) (by decide)
